import Mathlib

/-!
Shallow embedding of the WCP (waveform control protocol) client found in
`src/python/src/python_surfer/wcpclient.py`, together with theorems checking
the natural-language specification against it.

Modelling conventions:
* Python dataclasses become Lean structures with the same field names; an
  `Optional[T]` field becomes `Option T`.
* The dynamically typed payload lists (`Any` lists holding either strings or
  `DisplayedItemRef` values) become lists of `PyVal`, a sum of the two value
  shapes the code actually constructs.
* The `Dict[str, Any]` error payload becomes an association list
  `List (String × String)`, so that the number and names of its keys are
  observable (the code only ever stores string values).
* A Python method that can raise (here: the `AttributeError` from
  `message.command.command_type` when `command` is `None`, and from
  `response.response.response_type` when `response` is `None`) is embedded as a
  function into `Option`, where `none` means the call raised.
* No method of `WcpClient` assigns any attribute of `self`; the client state
  is exactly the `server_url` set by `__init__`, threaded explicitly.
-/

namespace PythonSurfer

/-- `DisplayedItemRef` dataclass from `wcpclient.py`. -/
structure DisplayedItemRef where
  id : String
deriving DecidableEq

/-- A dynamically typed payload value: the code stores either plain strings
(item names) or `DisplayedItemRef` values in its `data` lists. -/
inductive PyVal where
  | str : String → PyVal
  | ref : DisplayedItemRef → PyVal
deriving DecidableEq

/-- `ItemInfo` dataclass from `wcpclient.py`. -/
structure ItemInfo where
  id : String
  name : String
  color : Option String
deriving DecidableEq

/-- `WcpCommand` dataclass from `wcpclient.py`: a command tag plus a
`Dict[str, Any]` argument dictionary (the code only ever stores a list of
strings under a key, so the dictionary is an association list to string
lists; it defaults to empty). -/
structure WcpCommand where
  command_type : String
  args : List (String × List String)
deriving DecidableEq

/-- `WcpResponse` dataclass from `wcpclient.py`. -/
structure WcpResponse where
  response_type : String
  data : Option (List PyVal)
deriving DecidableEq

/-- `WcpEvent` dataclass from `wcpclient.py`. -/
structure WcpEvent where
  event_type : String
  data : Option (List PyVal)
deriving DecidableEq

/-- `WcpCSMessage` dataclass from `wcpclient.py` (client → server). -/
structure WcpCSMessage where
  message_type : String
  version : Option String
  commands : Option (List String)
  command : Option WcpCommand
deriving DecidableEq

/-- `WcpSCMessage` dataclass from `wcpclient.py` (server → client).  The
`error` field is the `Optional[Dict[str, Any]]` payload, embedded as an
optional association list. -/
structure WcpSCMessage where
  message_type : String
  version : Option String
  commands : Option (List String)
  response : Option WcpResponse
  error : Option (List (String × String))
  event : Option WcpEvent
deriving DecidableEq

/-- `WcpClient.__init__` stores only the server URL; no other attribute is
ever assigned by any method. -/
structure WcpClient where
  server_url : String
deriving DecidableEq

/-- The one error dictionary the code ever builds:
`{"error": "Unknown command", "message": "Command not recognized"}`. -/
def unknownCommandError : List (String × String) :=
  [("error", "Unknown command"), ("message", "Command not recognized")]

/-- The error-kind taxonomy enumerated by the specification (§7), as the
comparison target for the error-envelope claim: `version_mismatch`,
`not_ready`, `unknown_command`, `invalid_arguments`, `resolution_failed`,
`connection_closed`. -/
def errorKindTaxonomy : List String :=
  ["version_mismatch", "not_ready", "unknown_command", "invalid_arguments",
   "resolution_failed", "connection_closed"]

/-- The error `WcpSCMessage` returned by the fall-through of
`_simulate_server_response`. -/
def scErrorUnknown : WcpSCMessage :=
  ⟨"error", none, none, none, some unknownCommandError, none⟩

/-- The greeting reply built by `_simulate_server_response`. -/
def greetingReply : WcpSCMessage :=
  ⟨"greeting", some "1.0", some ["get_item_list", "add_variables"], none, none, none⟩

/-- The `get_item_list` response built by `_simulate_server_response`:
`data=["item1", "item2"]`. -/
def getItemListReply : WcpSCMessage :=
  ⟨"response", none, none,
    some ⟨"get_item_list", some [PyVal.str "item1", PyVal.str "item2"]⟩, none, none⟩

/-- The `add_variables` response built by `_simulate_server_response`:
`data=[DisplayedItemRef(id="var1"), DisplayedItemRef(id="var2")]`,
independent of the requested names. -/
def addVariablesReply : WcpSCMessage :=
  ⟨"response", none, none,
    some ⟨"add_variables", some [PyVal.ref ⟨"var1"⟩, PyVal.ref ⟨"var2"⟩]⟩, none, none⟩

/-- `WcpClient._simulate_server_response`.  Returns `none` exactly when the
Python raises: on a `"command"` message whose `command` field is `None`, the
attribute access `message.command.command_type` raises `AttributeError`.
All other paths return one `WcpSCMessage`; an unknown command tag and an
unknown message type both fall through to the final error return. -/
def WcpClient.simulate_server_response (_c : WcpClient) (message : WcpCSMessage) :
    Option WcpSCMessage :=
  if message.message_type = "greeting" then
    some greetingReply
  else if message.message_type = "command" then
    match message.command with
    | none => none
    | some cmd =>
      if cmd.command_type = "get_item_list" then
        some getItemListReply
      else if cmd.command_type = "add_variables" then
        some addVariablesReply
      else
        some scErrorUnknown
  else
    some scErrorUnknown

/-- `WcpClient.send_message`: forwards to `_simulate_server_response` and
returns its result. -/
def WcpClient.send_message (c : WcpClient) (message : WcpCSMessage) :
    Option WcpSCMessage :=
  c.simulate_server_response message

/-- The tail of `WcpClient.get_item_list` after `send_message`: the guard
`if response.message_type == "response" and
response.response.response_type == "get_item_list"` followed by
`return response.response.data` / `return []`.  Outer `none` means the
attribute access on a `None` inner response raised; the inner option is the
returned Python value (`None` or a list). -/
def get_item_list_handle (response : WcpSCMessage) : Option (Option (List PyVal)) :=
  if response.message_type = "response" then
    match response.response with
    | none => none
    | some inner =>
      if inner.response_type = "get_item_list" then some inner.data
      else some (some [])
  else some (some [])

/-- The tail of `WcpClient.add_variables` after `send_message` (same guard
with tag `"add_variables"`). -/
def add_variables_handle (response : WcpSCMessage) : Option (Option (List PyVal)) :=
  if response.message_type = "response" then
    match response.response with
    | none => none
    | some inner =>
      if inner.response_type = "add_variables" then some inner.data
      else some (some [])
  else some (some [])

/-- `WcpClient.get_item_list`: builds the `get_item_list` command message
(no args), sends it, and filters the reply. -/
def WcpClient.get_item_list (c : WcpClient) : Option (Option (List PyVal)) :=
  (c.send_message ⟨"command", none, none, some ⟨"get_item_list", []⟩⟩).bind
    get_item_list_handle

/-- `WcpClient.add_variables`: builds the `add_variables` command message with
`args={"names": names}`, sends it, and filters the reply. -/
def WcpClient.add_variables (c : WcpClient) (names : List String) :
    Option (Option (List PyVal)) :=
  (c.send_message ⟨"command", none, none, some ⟨"add_variables", [("names", names)]⟩⟩).bind
    add_variables_handle

/-- One client-side call, for reasoning about call sequences. -/
inductive ClientOp where
  | send (m : WcpCSMessage)
  | getItems
  | addVars (names : List String)

/-- The result a `ClientOp` produces. -/
inductive OpResult where
  | reply (r : Option WcpSCMessage)
  | pylist (l : Option (Option (List PyVal)))

/-- Run one client call: the result, paired with the client state after the
call.  None of the three Python methods assigns any attribute of `self`, so
the post-state is the pre-state. -/
def WcpClient.runOp (c : WcpClient) : ClientOp → OpResult × WcpClient
  | ClientOp.send m => (OpResult.reply (c.send_message m), c)
  | ClientOp.getItems => (OpResult.pylist c.get_item_list, c)
  | ClientOp.addVars ns => (OpResult.pylist (c.add_variables ns), c)

/-- The client state after a sequence of calls. -/
def WcpClient.afterOps (c : WcpClient) (ops : List ClientOp) : WcpClient :=
  ops.foldl (fun s op => (s.runOp op).2) c

theorem runOp_state_eq (c : WcpClient) (op : ClientOp) : (c.runOp op).2 = c := by
  cases op <;> rfl

theorem afterOps_eq (c : WcpClient) (ops : List ClientOp) : c.afterOps ops = c := by
  induction ops generalizing c with
  | nil => rfl
  | cons op ops ih =>
    show WcpClient.afterOps (c.runOp op).2 ops = c
    rw [runOp_state_eq]
    exact ih c

/-- Every reply `_simulate_server_response` actually produces is one of four
fixed messages: the greeting reply, the two canned responses, or the single
unknown-command error. -/
theorem send_message_cases (c : WcpClient) (m : WcpCSMessage) (r : WcpSCMessage)
    (h : c.send_message m = some r) :
    r = greetingReply ∨ r = getItemListReply ∨ r = addVariablesReply ∨ r = scErrorUnknown := by
  unfold WcpClient.send_message WcpClient.simulate_server_response at h
  split_ifs at h with h1 h2
  · exact Or.inl (Option.some.inj h).symm
  · rcases hcm : m.command with _ | cmd <;> rw [hcm] at h
    · exact Option.noConfusion h
    · change (if cmd.command_type = "get_item_list" then some getItemListReply
          else if cmd.command_type = "add_variables" then some addVariablesReply
          else some scErrorUnknown) = some r at h
      split_ifs at h
      · exact Or.inr (Or.inl (Option.some.inj h).symm)
      · exact Or.inr (Or.inr (Or.inl (Option.some.inj h).symm))
      · exact Or.inr (Or.inr (Or.inr (Option.some.inj h).symm))
  · exact Or.inr (Or.inr (Or.inr (Option.some.inj h).symm))

/-- Every error-typed reply the server produces is the single fixed
unknown-command error message. -/
theorem error_reply_eq (c : WcpClient) (m : WcpCSMessage) (r : WcpSCMessage)
    (h : c.send_message m = some r) (he : r.message_type = "error") :
    r = scErrorUnknown := by
  rcases send_message_cases c m r h with hr | hr | hr | hr
  · rw [hr] at he; exact absurd he (by decide)
  · rw [hr] at he; exact absurd he (by decide)
  · rw [hr] at he; exact absurd he (by decide)
  · exact hr

/-- Claim C1, counterexample: the claim says `send_message` returns exactly
one `SCMessage` for every `CSMessage` and never fails, "including a message of
type `command` whose command payload is absent (None)".  On exactly that
input the code raises `AttributeError` (`message.command.command_type` on
`None`), so no `SCMessage` is returned: the embedding yields `none`. -/
theorem send_message_raises_on_absent_command_payload :
    WcpClient.send_message ⟨"url"⟩ ⟨"command", none, none, none⟩ = none := rfl

/-- Claim C1 (amended): for every `CSMessage` other than a `command`-typed
message with an absent command payload, `send_message` returns exactly one
`SCMessage`; no failure is silently dropped on those inputs. -/
theorem send_message_returns_one_reply_unless_command_absent
    (c : WcpClient) (m : WcpCSMessage)
    (h : m.message_type = "command" → m.command ≠ none) :
    (c.send_message m).isSome := by
  unfold WcpClient.send_message WcpClient.simulate_server_response
  split_ifs with h1 h2
  · rfl
  · rcases hcm : m.command with _ | cmd
    · exact absurd hcm (h h2)
    · show (if cmd.command_type = "get_item_list" then some getItemListReply
          else if cmd.command_type = "add_variables" then some addVariablesReply
          else some scErrorUnknown).isSome = true
      split_ifs <;> rfl
  · rfl

/-- Witness for C1's amended theorem at a concrete greeting message. -/
theorem send_message_returns_one_reply_witness :
    (WcpClient.send_message ⟨"url"⟩ ⟨"greeting", some "1.0", none, none⟩).isSome :=
  send_message_returns_one_reply_unless_command_absent ⟨"url"⟩
    ⟨"greeting", some "1.0", none, none⟩ (by decide)

/-- Claim C2, counterexample: requesting three names yields the fixed
two-element reference list, so the response length does not equal the
request length. -/
theorem add_variables_length_mismatch_three_names :
    WcpClient.add_variables ⟨"url2"⟩ ["a", "b", "c"] =
      some (some [PyVal.ref ⟨"var1"⟩, PyVal.ref ⟨"var2"⟩]) ∧
    ([PyVal.ref ⟨"var1"⟩, PyVal.ref ⟨"var2"⟩] : List PyVal).length ≠
      (["a", "b", "c"] : List String).length :=
  ⟨rfl, by decide⟩

/-- Claim C2 (amended): the `add_variables` response always carries the fixed
two-element list of references `var1, var2`, independent of the requested
names; its length equals the request length only when two names are
requested. -/
theorem add_variables_reply_is_fixed_pair (c : WcpClient) (ns : List String) :
    c.add_variables ns = some (some [PyVal.ref ⟨"var1"⟩, PyVal.ref ⟨"var2"⟩]) := rfl

/-- Claim C3, counterexample: on a freshly constructed client, with no
greeting ever sent (so the connection is not in a `Ready` state), a
`command` message is answered with a `response`, not an `error` of kind
`not_ready`. -/
theorem command_before_greeting_gets_response :
    WcpClient.send_message ⟨"fresh"⟩ ⟨"command", none, none, some ⟨"get_item_list", []⟩⟩ =
      some getItemListReply ∧
    getItemListReply.message_type = "response" ∧
    ("response" : String) ≠ "error" :=
  ⟨rfl, rfl, by decide⟩

/-- Claim C3 (amended): the simulated server keeps no handshake state and has
no `not_ready` rejection at all: every error it ever produces is the single
unknown-command error, whose payload never mentions `not_ready`. -/
theorem server_error_is_never_not_ready (c : WcpClient) (m : WcpCSMessage) (r : WcpSCMessage)
    (h : c.send_message m = some r) (he : r.message_type = "error") :
    r.error = some unknownCommandError ∧
    ∀ kv ∈ unknownCommandError, kv.1 ≠ "not_ready" ∧ kv.2 ≠ "not_ready" := by
  have hr := error_reply_eq c m r h he
  subst hr
  exact ⟨rfl, by decide⟩

/-- Witness for C3's amended theorem at a concrete unknown command. -/
theorem server_error_is_never_not_ready_witness :
    scErrorUnknown.error = some unknownCommandError ∧
    ∀ kv ∈ unknownCommandError, kv.1 ≠ "not_ready" ∧ kv.2 ≠ "not_ready" :=
  server_error_is_never_not_ready ⟨"w3"⟩ ⟨"command", none, none, some ⟨"mystery", []⟩⟩
    scErrorUnknown rfl rfl

/-- Claim C4, counterexample: `add_variables([])` does not return the empty
list; it returns the fixed two-element reference list. -/
theorem add_variables_empty_result_not_empty :
    WcpClient.add_variables ⟨"url3"⟩ [] =
      some (some [PyVal.ref ⟨"var1"⟩, PyVal.ref ⟨"var2"⟩]) ∧
    some (some ([PyVal.ref ⟨"var1"⟩, PyVal.ref ⟨"var2"⟩] : List PyVal)) ≠
      some (some ([] : List PyVal)) :=
  ⟨rfl, by decide⟩

/-- Claim C4 (amended): `add_variables([])` does not produce an error (the
reply is a `response`-typed message and the call raises nothing), but it
returns the server's fixed two-element reference list rather than the empty
list. -/
theorem add_variables_empty_returns_fixed_pair (c : WcpClient) :
    c.add_variables [] = some (some [PyVal.ref ⟨"var1"⟩, PyVal.ref ⟨"var2"⟩]) ∧
    c.send_message ⟨"command", none, none, some ⟨"add_variables", [("names", [])]⟩⟩ =
      some addVariablesReply ∧
    addVariablesReply.message_type ≠ "error" :=
  ⟨rfl, rfl, by decide⟩

/-- Claim C5, counterexample: `add_variables(["a","b","c"])` on a fresh
client returns 2 references, not 3, and the subsequent `get_item_list`
returns `["item1", "item2"]`, which does not include the name `"a"`. -/
theorem add_three_names_counterexample :
    WcpClient.add_variables ⟨"url4"⟩ ["a", "b", "c"] =
      some (some [PyVal.ref ⟨"var1"⟩, PyVal.ref ⟨"var2"⟩]) ∧
    (WcpClient.afterOps ⟨"url4"⟩ [ClientOp.addVars ["a", "b", "c"]]).get_item_list =
      some (some [PyVal.str "item1", PyVal.str "item2"]) ∧
    PyVal.str "a" ∉ [PyVal.str "item1", PyVal.str "item2"] ∧
    ([PyVal.ref ⟨"var1"⟩, PyVal.ref ⟨"var2"⟩] : List PyVal).length ≠ 3 :=
  ⟨rfl, rfl, by decide, by decide⟩

/-- Claim C5 (amended): on any client, `add_variables(["a","b","c"])` returns
exactly the two fixed references `var1, var2`, and a subsequent
`get_item_list` returns `["item1", "item2"]`, which contains none of the
three requested names. -/
theorem add_three_names_fixed_replies (c : WcpClient) :
    c.add_variables ["a", "b", "c"] =
      some (some [PyVal.ref ⟨"var1"⟩, PyVal.ref ⟨"var2"⟩]) ∧
    (c.afterOps [ClientOp.addVars ["a", "b", "c"]]).get_item_list =
      some (some [PyVal.str "item1", PyVal.str "item2"]) ∧
    ∀ n ∈ (["a", "b", "c"] : List String),
      PyVal.str n ∉ [PyVal.str "item1", PyVal.str "item2"] := by
  refine ⟨rfl, ?_, by decide⟩
  rw [afterOps_eq]
  rfl

/-- Claim C6 (confirmed): a `command` message whose tag is neither
`get_item_list` nor `add_variables` is answered by the fixed error message
(the code renders the `unknown_command` kind as the tag string
`"Unknown command"` in its error payload), and never by a `response`. -/
theorem unknown_command_tag_yields_error (c : WcpClient) (m : WcpCSMessage) (cmd : WcpCommand)
    (hm : m.message_type = "command") (hc : m.command = some cmd)
    (h1 : cmd.command_type ≠ "get_item_list") (h2 : cmd.command_type ≠ "add_variables") :
    c.send_message m = some scErrorUnknown ∧
    scErrorUnknown.message_type = "error" ∧
    scErrorUnknown.error = some unknownCommandError ∧
    scErrorUnknown.message_type ≠ "response" := by
  refine ⟨?_, rfl, rfl, by decide⟩
  unfold WcpClient.send_message WcpClient.simulate_server_response
  rw [hm, hc]
  rw [if_neg (by decide : ¬("command" : String) = "greeting")]
  rw [if_pos (rfl : ("command" : String) = "command")]
  show (if cmd.command_type = "get_item_list" then some getItemListReply
      else if cmd.command_type = "add_variables" then some addVariablesReply
      else some scErrorUnknown) = some scErrorUnknown
  rw [if_neg h1, if_neg h2]

/-- Witness for C6 at a concrete unrecognized command tag. -/
theorem unknown_command_tag_yields_error_witness :
    WcpClient.send_message ⟨"w6"⟩ ⟨"command", none, none, some ⟨"zoom_to_fit", []⟩⟩ =
      some scErrorUnknown ∧
    scErrorUnknown.message_type = "error" ∧
    scErrorUnknown.error = some unknownCommandError ∧
    scErrorUnknown.message_type ≠ "response" :=
  unknown_command_tag_yields_error ⟨"w6"⟩ ⟨"command", none, none, some ⟨"zoom_to_fit", []⟩⟩
    ⟨"zoom_to_fit", []⟩ rfl rfl (by decide) (by decide)

/-- Claim C7 (confirmed): every `greeting` message (in particular one with a
supported version — the server ignores the offered version) is answered with
a `greeting` reply carrying the honored version `"1.0"` and a non-empty
commands list containing both `get_item_list` and `add_variables`. -/
theorem greeting_yields_capability_reply (c : WcpClient) (m : WcpCSMessage)
    (h : m.message_type = "greeting") :
    c.send_message m = some greetingReply ∧
    greetingReply.message_type = "greeting" ∧
    greetingReply.version = some "1.0" ∧
    greetingReply.commands = some ["get_item_list", "add_variables"] ∧
    (["get_item_list", "add_variables"] : List String) ≠ [] ∧
    "get_item_list" ∈ (["get_item_list", "add_variables"] : List String) ∧
    "add_variables" ∈ (["get_item_list", "add_variables"] : List String) := by
  refine ⟨?_, rfl, rfl, rfl, by decide, by decide, by decide⟩
  unfold WcpClient.send_message WcpClient.simulate_server_response
  rw [h]
  rw [if_pos (rfl : ("greeting" : String) = "greeting")]

/-- Witness for C7 at a concrete greeting with version `"1.0"`. -/
theorem greeting_yields_capability_reply_witness :
    WcpClient.send_message ⟨"w7"⟩ ⟨"greeting", some "1.0", none, none⟩ =
      some greetingReply ∧
    greetingReply.message_type = "greeting" ∧
    greetingReply.version = some "1.0" ∧
    greetingReply.commands = some ["get_item_list", "add_variables"] ∧
    (["get_item_list", "add_variables"] : List String) ≠ [] ∧
    "get_item_list" ∈ (["get_item_list", "add_variables"] : List String) ∧
    "add_variables" ∈ (["get_item_list", "add_variables"] : List String) :=
  greeting_yields_capability_reply ⟨"w7"⟩ ⟨"greeting", some "1.0", none, none⟩ rfl

/-- Claim C8, counterexample: the claim requires the error-kind tag to be
drawn from the enumerated taxonomy, not free text.  At a concrete unknown
command the produced error carries the kind `"Unknown command"`, a free-text
phrase that is not one of the taxonomy's tags. -/
theorem error_kind_not_in_taxonomy :
    WcpClient.send_message ⟨"url8"⟩ ⟨"command", none, none, some ⟨"set_color", []⟩⟩ =
      some scErrorUnknown ∧
    scErrorUnknown.error =
      some [("error", "Unknown command"), ("message", "Command not recognized")] ∧
    "Unknown command" ∉ errorKindTaxonomy :=
  ⟨rfl, rfl, by decide⟩

/-- Claim C8 (amended): every error-typed reply the server produces carries
one fixed envelope — the exact payload with the two keys `"error"` and
`"message"`, no response or event payload alongside it — but the kind tag
under `"error"` is the free-text phrase `"Unknown command"`, which is not
drawn from the taxonomy enumerated by the specification. -/
theorem error_envelope_fixed_free_text_shape (c : WcpClient) (m : WcpCSMessage)
    (r : WcpSCMessage)
    (h : c.send_message m = some r) (he : r.message_type = "error") :
    r.error = some [("error", "Unknown command"), ("message", "Command not recognized")] ∧
    r.response = none ∧ r.event = none ∧
    "Unknown command" ∉ errorKindTaxonomy := by
  have hr := error_reply_eq c m r h he
  subst hr
  exact ⟨rfl, rfl, rfl, by decide⟩

/-- Witness for C8's amended theorem at a concrete non-command message type. -/
theorem error_envelope_fixed_free_text_shape_witness :
    scErrorUnknown.error =
      some [("error", "Unknown command"), ("message", "Command not recognized")] ∧
    scErrorUnknown.response = none ∧ scErrorUnknown.event = none ∧
    "Unknown command" ∉ errorKindTaxonomy :=
  error_envelope_fixed_free_text_shape ⟨"w8"⟩ ⟨"unsupported_type", none, none, none⟩
    scErrorUnknown rfl rfl

/-- Claim C9 (confirmed): for every reply that is not a matching response —
an error, a greeting, or a `response`-typed message whose inner response tag
differs from the issued command — the post-`send_message` logic of
`get_item_list` and of `add_variables` returns the empty list and raises
nothing. -/
theorem non_matching_reply_yields_empty_list (r : WcpSCMessage) :
    ((r.message_type = "error" ∨ r.message_type = "greeting" ∨
        ∃ inner, r.response = some inner ∧ inner.response_type ≠ "get_item_list") →
      get_item_list_handle r = some (some [])) ∧
    ((r.message_type = "error" ∨ r.message_type = "greeting" ∨
        ∃ inner, r.response = some inner ∧ inner.response_type ≠ "add_variables") →
      add_variables_handle r = some (some [])) := by
  constructor
  · intro h
    unfold get_item_list_handle
    by_cases hr : r.message_type = "response"
    · rcases h with h | h | ⟨inner, hi, hne⟩
      · rw [hr] at h; exact absurd h (by decide)
      · rw [hr] at h; exact absurd h (by decide)
      · rw [if_pos hr, hi]
        show (if inner.response_type = "get_item_list" then some inner.data
            else some (some [])) = some (some [])
        rw [if_neg hne]
    · rw [if_neg hr]
  · intro h
    unfold add_variables_handle
    by_cases hr : r.message_type = "response"
    · rcases h with h | h | ⟨inner, hi, hne⟩
      · rw [hr] at h; exact absurd h (by decide)
      · rw [hr] at h; exact absurd h (by decide)
      · rw [if_pos hr, hi]
        show (if inner.response_type = "add_variables" then some inner.data
            else some (some [])) = some (some [])
        rw [if_neg hne]
    · rw [if_neg hr]

/-- Witness for C9 at the concrete greeting reply. -/
theorem non_matching_reply_yields_empty_list_witness :
    get_item_list_handle greetingReply = some (some []) ∧
    add_variables_handle greetingReply = some (some []) :=
  ⟨(non_matching_reply_yields_empty_list greetingReply).1 (Or.inr (Or.inl rfl)),
   (non_matching_reply_yields_empty_list greetingReply).2 (Or.inr (Or.inl rfl))⟩

/-- Claim C10 (confirmed): `send_message` is deterministic and stateless —
two calls with the same message give equal results, no method of the client
ever mutates its state, and interposing any sequence of other calls between
two `send_message` calls does not change the result. -/
theorem send_message_deterministic_and_stateless (c : WcpClient) (ops : List ClientOp)
    (m : WcpCSMessage) :
    c.send_message m = c.send_message m ∧
    (c.afterOps ops).send_message m = c.send_message m ∧
    c.afterOps ops = c :=
  ⟨rfl, by rw [afterOps_eq], afterOps_eq c ops⟩

end PythonSurfer
